import Mathlib

/-!
# Verification of the ivadomed 2D segmentation dataset core

Shallow embedding of `src/ivadomed/loader/mri2d_segmentation_dataset.py`
(`MRI2DSegmentationDataset.prepare_indices`, `__len__`, `__getitem__`) and of
`src/ivadomed/transforms.py` (`ROICrop2D.__call__`, `DilateGT.__call__`),
together with proofs of the specification's claims about them.

Conventions: Python ints are modelled as `ℤ` (or `ℕ` where the source value is
a length/count), numpy/torch float arrays as functions into `ℚ`, fallible code
as `Except PyErr`/`Option`, and Python exceptions as explicit error values.
-/

set_option autoImplicit false

namespace Ivadomed

/-! ## Index builder: `prepare_indices`

`MRI2DSegmentationDataset.prepare_indices` (mri2d_segmentation_dataset.py,
lines 142-168) validates `length`/`stride` per handler and tiles each handler
shape into overlapping patches. -/

/-- The three `RuntimeError`s raised by `prepare_indices` (lines 149-155).
`badDims`: `'"length_2D" and "stride_2D" must be of length 2.'`;
`badStride`: `'"stride_2D" must be greater than 0 and smaller or equal to "length_2D".'`;
`badLength`: `'"length_2D" must be smaller or equal to image dimensions.'`.
The spec's error taxonomy names this class of build-time errors
`ConfigurationError`. -/
inductive ConfigError where
  | badDims
  | badStride
  | badLength
deriving DecidableEq, Repr

/-- One patch coordinate dict appended to `self.indexes`
(mri2d_segmentation_dataset.py, lines 163-168). -/
structure PatchRecord where
  x_min : ℤ
  x_max : ℤ
  y_min : ℤ
  y_max : ℤ
  handler_index : ℕ
deriving DecidableEq, Repr

/-- Number of elements of Python `range(0, stop, step)` for `step > 0`:
`⌈stop/step⌉` when `stop > 0`, else `0`.  (All call sites in the embedded code
have `step > 0`; the `step ≤ 0` branch is unreachable junk.) -/
def pyRangeLen (stop step : ℤ) : ℕ :=
  if 0 < step then (stop.toNat + step.toNat - 1) / step.toNat else 0

/-- Python `range(0, stop, step)` for a positive `step`: `0, step, 2*step, …`
while the value is `< stop`. -/
def pyRange (stop step : ℤ) : List ℤ :=
  (List.range (pyRangeLen stop step)).map (fun k : ℕ => (k : ℤ) * step)

/-- The clamp applied to a loop variable inside `prepare_indices`
(lines 158-159 and 161-162): `if x + length > size: x = size - length`. -/
def clampStart (size L x : ℤ) : ℤ :=
  if x + L > size then size - L else x

/-- The per-axis start sequence produced by one `for`-loop of
`prepare_indices`: candidates `range(0, size - L + S, S)`, each clamped.
(Reassigning the Python loop variable does not affect the iterator, so the
clamp applies pointwise to the candidate list.) -/
def axisStarts (size L S : ℤ) : List ℤ :=
  (pyRange (size - L + S) S).map (clampStart size L)

/-- The records appended for one handler `i` of shape `(H, W)` by the nested
`x`/`y` loops of `prepare_indices` (lines 157-168): the Cartesian product of
the two axis start sequences, `x` outer, `y` inner. -/
def tileHandler (length stride : List ℤ) (shape : ℤ × ℤ) (i : ℕ) : List PatchRecord :=
  let L0 := length.getD 0 0
  let L1 := length.getD 1 0
  let S0 := stride.getD 0 0
  let S1 := stride.getD 1 0
  (axisStarts shape.1 L0 S0).flatMap (fun x =>
    (axisStarts shape.2 L1 S1).map (fun y =>
      { x_min := x, x_max := x + L0, y_min := y, y_max := y + L1, handler_index := i }))

/-- The per-axis validation of `prepare_indices` (lines 151-155), in source
order: the stride check precedes the length-vs-shape check. -/
def checkAxis (L S size : ℤ) : Option ConfigError :=
  if S > L ∨ S ≤ 0 then some .badStride
  else if L > size then some .badLength
  else none

/-- The whole validation block run for one handler (lines 149-155):
dimensionality check first, then the two axes in `zip` order. -/
def validateHandler (length stride : List ℤ) (shape : ℤ × ℤ) : Option ConfigError :=
  if length.length ≠ 2 ∨ stride.length ≠ 2 then some .badDims
  else match checkAxis (length.getD 0 0) (stride.getD 0 0) shape.1 with
    | some e => some e
    | none => checkAxis (length.getD 1 0) (stride.getD 1 0) shape.2

/-- The loop body of `prepare_indices` over the handler list (each handler is
represented by the shape of its first input array, `input_img[0].shape`):
validate, tile, continue; the first `RuntimeError` aborts the build. -/
def prepareIndicesAux (length stride : List ℤ) :
    List (ℤ × ℤ) → ℕ → Except ConfigError (List PatchRecord)
  | [], _ => .ok []
  | shape :: rest, i =>
    match validateHandler length stride shape with
    | some e => .error e
    | none =>
      match prepareIndicesAux length stride rest (i + 1) with
      | .error e => .error e
      | .ok tail => .ok (tileHandler length stride shape i ++ tail)

/-- `prepare_indices` (mri2d_segmentation_dataset.py, lines 142-168): builds
the patch index from the accepted handlers' shapes.  `__len__` of the dataset
is the length of the returned record list. -/
def prepareIndices (length stride : List ℤ) (shapes : List (ℤ × ℤ)) :
    Except ConfigError (List PatchRecord) :=
  prepareIndicesAux length stride shapes 0

/-- The spec's own wording of the candidate generation, as a `while` loop:
"generate candidate starts `0, S, 2S, …` while `start < size-L+S`". -/
def specStartsAux (bound S start : ℤ) : List ℤ :=
  if _h : 0 < S ∧ start < bound then
    start :: specStartsAux bound S (start + S)
  else []
termination_by (bound - start).toNat
decreasing_by
  omega

/-- The spec's per-axis start sequence: generate candidates while
`start < size-L+S`, then "clamp any start for which `start+L > size` down to
`size-L`". -/
def specAxisStarts (size L S : ℤ) : List ℤ :=
  (specStartsAux (size - L + S) S 0).map (clampStart size L)

/-- The claim's per-handler malformedness conditions on the configuration
(`length`/`stride` not 2-dimensional, a stride component `≤ 0` or exceeding
the length component, or a length component exceeding the handler shape). -/
def badConfig (length stride : List ℤ) (sh : ℤ × ℤ) : Prop :=
  length.length ≠ 2 ∨ stride.length ≠ 2 ∨
  stride.getD 0 0 ≤ 0 ∨ stride.getD 1 0 ≤ 0 ∨
  length.getD 0 0 < stride.getD 0 0 ∨ length.getD 1 0 < stride.getD 1 0 ∨
  sh.1 < length.getD 0 0 ∨ sh.2 < length.getD 1 0

instance (length stride : List ℤ) (sh : ℤ × ℤ) : Decidable (badConfig length stride sh) := by
  unfold badConfig
  infer_instance

/-! ## Sample assembler: `__getitem__`

Embedding of `MRI2DSegmentationDataset.__getitem__`
(mri2d_segmentation_dataset.py, lines 176-286) and `__len__` (lines 173-174).
The transform pipeline, `dropout_input` and the tensor packaging of the
classification label are external collaborators and appear as function
parameters. -/

/-- Python exceptions surfaced by the embedded code paths. -/
inductive PyErr where
  | indexError
  | typeError
  | valueError
  | keyError
  | nameError
deriving DecidableEq, Repr

/-- Python list subscription `lst[i]`: nonnegative positions index from the
front, positions in `[-len, 0)` from the back, anything else raises
(returns `none`). -/
def pythonGet {α : Type} (l : List α) (i : ℤ) : Option α :=
  if 0 ≤ i then l.get? i.toNat
  else if 0 ≤ (l.length : ℤ) + i then l.get? ((l.length : ℤ) + i).toNat
  else none

/-- One per-channel metadata record: a finite map from string keys; values
are modelled as integer lists, enough for the keys the embedded code writes
(the patch window under key coord). -/
def Meta : Type := String → Option (List ℤ)

/-- The empty metadata record. -/
def Meta.empty : Meta := fun _ => none

/-- Metadata record update `m[k] = v`. -/
def Meta.set (k : String) (v : List ℤ) (m : Meta) : Meta :=
  fun q => if q = k then some v else m q

/-- Override merge of two records: keys defined in `src` win, every other key
keeps the value from `dest`. -/
def mergeRec (src dest : Meta) : Meta :=
  fun k => match src k with
    | some v => some v
    | none => dest k

/-- Modelled from the spec: `update_metadata` is imported from
`ivadomed.loader.tools.utils`, whose source is not in the repository snapshot.
Per the spec the merge lets source-defined keys override while all other
destination keys are preserved ("Merge ROI output metadata into input
metadata: ROI-defined keys override, others are preserved from input.").
Each destination channel record merges the source's first channel record
(role-level derived keys such as crop parameters live there). -/
def update_metadata (src dest : List Meta) : List Meta :=
  match src with
  | [] => dest
  | s :: _ => dest.map (fun d => mergeRec s d)

/-- One stacked tensor (channels × height × width), the output type of the
transform pipeline (a `torch` tensor in the source). -/
structure Tensor3 where
  channels : ℕ
  height : ℕ
  width : ℕ
  data : ℕ → ℕ → ℕ → ℚ

/-- Model of `torch.zeros(c, h, w)`. -/
def zerosT (c h w : ℕ) : Tensor3 :=
  { channels := c, height := h, width := w, data := fun _ _ _ => 0 }

/-- Resolution of a Python slice endpoint `i` against an axis of length `n`
(step `+1`): negative endpoints count from the end, and both endpoints are
clamped into `[0, n]` — out-of-range slices never raise. -/
def pySliceIdx (n : ℕ) (i : ℤ) : ℕ :=
  if i < 0 then ((n : ℤ) + i).toNat else min i.toNat n

/-- Model of `t[:, a:b, c:d]` — Python basic slicing of the two spatial axes
with the channel axis kept whole (mri2d_segmentation_dataset.py, lines
255-270). -/
def slice3 (t : Tensor3) (a b c d : ℤ) : Tensor3 :=
  { channels := t.channels
    height := pySliceIdx t.height b - pySliceIdx t.height a
    width := pySliceIdx t.width d - pySliceIdx t.width c
    data := fun ch i j => t.data ch (pySliceIdx t.height a + i) (pySliceIdx t.width c + j) }

/-- Modelled from the spec: `imed_postpro.threshold_predictions(stack_gt, 0.5)`
(module `ivadomed.postprocessing`, not in the snapshot) binarizes the ground
truth at threshold `0.5` ("if soft-label mode is disabled, binarize the result
at threshold 0.5"). -/
def threshold_predictions (t : Tensor3) : Tensor3 :=
  { t with data := fun c i j => if 1/2 ≤ t.data c i j then 1 else 0 }

/-- A slice's ground truth paired with its per-class metadata.  `single` is
the one-array-per-class form; `multi` is the multi-rater form in which each
class carries one array per rater (detected by `isinstance(gt[0], list)` in
the source).  The pairing encodes the loader invariant that `gt` and
`gt_metadata` share their nesting. -/
inductive GtPack (A : Type) where
  | single (classes : List A) (metas : List Meta)
  | multi (classes : List (List A)) (metas : List (List Meta))

/-- The `seg_pair_slice` dict fields read by `__getitem__`. -/
structure SegSlice (A : Type) where
  input : List A
  gt : Option (GtPack A)
  input_metadata : Option (List Meta)

/-- The `roi_pair_slice` dict fields read by `__getitem__` (an ROI pair
stores the ROI mask under its `gt` key). -/
structure RoiSlice (A : Type) where
  gt : Option (List A)
  gt_metadata : Option (List Meta)

/-- One handler: the `(seg_pair_slice, roi_pair_slice)` tuple stored in
`self.handlers` (patch mode) or `self.indexes` (no-patch mode). -/
structure Bundle (A : Type) where
  seg : SegSlice A
  roi : RoiSlice A

/-- One element of `self.indexes`: a whole-slice bundle in no-patch mode, or
a patch coordinate dict in patch mode. -/
inductive IndexEntry (A : Type) where
  | whole (b : Bundle A)
  | patch (r : PatchRecord)

/-- The `task` configuration value. -/
inductive Task where
  | segmentation
  | classification
deriving DecidableEq

/-- The dataset state consulted by `__getitem__` and `__len__`. -/
structure Dataset2D (A : Type) where
  is2dPatch : Bool
  indexes : List (IndexEntry A)
  handlers : List (Bundle A)
  task : Task
  soft_gt : Bool
  is_input_dropout : Bool

/-- Model of `__len__` (lines 173-174): the length of `self.indexes`. -/
def datasetLen {A : Type} (ds : Dataset2D A) : ℕ := ds.indexes.length

/-- Role tag passed to the transform pipeline (its `data_type` argument). -/
inductive DataKind where
  | roi
  | im
  | gt
deriving DecidableEq, Repr

/-- The transform pipeline `self.transform` (external collaborator): maps a
role tag, an optional array list and metadata to an optional stacked tensor
and output metadata. -/
def TransformFn (A : Type) : Type :=
  DataKind → Option (List A) → List Meta → Option Tensor3 × List Meta

/-- One recorded invocation of the transform pipeline (ghost trace used to
state the ordering claims). -/
structure TCall (A : Type) where
  kind : DataKind
  sample : Option (List A)
  metadata : List Meta

/-- The returned `data_dict`. -/
structure Sample where
  input : Option Tensor3
  gt : Option Tensor3
  roi : Option Tensor3
  input_metadata : List Meta
  gt_metadata : List Meta
  roi_metadata : List Meta

/-- Lines 186-190: resolve the fetch position to a handler bundle (and the
patch record in patch mode).  Python list subscription accepts negative
positions; subscripting or unpacking an entry of the wrong shape raises
(`KeyError` / `ValueError`), and `self.handlers[coord['handler_index']]`
raises `IndexError` when out of range. -/
def resolveEntry {A : Type} (ds : Dataset2D A) (index : ℤ) :
    Except PyErr (Bundle A × Option PatchRecord) :=
  match pythonGet ds.indexes index with
  | none => .error .indexError
  | some e =>
    if ds.is2dPatch then
      match e with
      | .patch coord =>
        match ds.handlers.get? coord.handler_index with
        | none => .error .indexError
        | some b => .ok (b, some coord)
      | .whole _ => .error .keyError
    else
      match e with
      | .whole b => .ok (b, none)
      | .patch _ => .error .valueError

/-- Lines 198-200, one pass of the per-class loop: select the element at the
drawn rater position in every class's rater list and in the matching
metadata list (Python raises `IndexError` when a class or its metadata has
too few entries). -/
def resolveMulti {A : Type} (rand : ℕ) :
    List (List A) → List (List Meta) → Except PyErr (List A × List Meta)
  | [], _ => .ok ([], [])
  | _ :: _, [] => .error .indexError
  | cl :: cls, ml :: mls =>
    match cl.get? rand, ml.get? rand with
    | some a, some m =>
      match resolveMulti rand cls mls with
      | .error e => .error e
      | .ok (as2, ms2) => .ok (a :: as2, m :: ms2)
    | _, _ => .error .indexError

/-- Lines 192-200: multi-rater resolution.  `rand` stands for the value
returned by `random.randint(0, len(gt[0]) - 1)` — one uniform draw per fetch.
Reading `gt[0]` of an empty list raises `IndexError` (this happens for any
non-`None` empty ground truth, single- or multi-rater), and
`randint(0, -1)` raises `ValueError`.  Returns the ground-truth arrays and
metadata in single-rater form. -/
def resolveRater {A : Type} (rand : ℕ) (gt : Option (GtPack A)) :
    Except PyErr (Option (List A) × Option (List Meta)) :=
  match gt with
  | none => .ok (none, none)
  | some (.single classes metas) =>
    if classes.isEmpty then .error .indexError
    else .ok (some classes, some metas)
  | some (.multi classes metas) =>
    if classes.isEmpty then .error .indexError
    else if (classes.headD []).length = 0 then .error .valueError
    else
      match resolveMulti rand classes metas with
      | .error e => .error e
      | .ok (as2, ms2) => .ok (some as2, some ms2)

/-- Lines 202-286: the body of `__getitem__` after index and rater
resolution.  `T` is the transform pipeline; `fromArr` models
`torch.from_numpy(...).expand(1)` in the classification branch; `dropoutF`
models the external `dropout_input`.  Returns the assembled sample together
with the ghost trace of transform invocations, in call order. -/
def processBundle {A : Type} (T : TransformFn A) (task : Task) (soft_gt : Bool)
    (isDropout : Bool) (dropoutF : Sample → Sample) (fromArr : A → Tensor3)
    (b : Bundle A) (gtArrs : Option (List A)) (gtMetas : Option (List Meta))
    (co : Option PatchRecord) : Except PyErr (Sample × List (TCall A)) :=
  let metadata_input0 := b.seg.input_metadata.getD []
  let metadata_roi0 := b.roi.gt_metadata.getD []
  let metadata_gt0 := gtMetas.getD []
  let roiRes := T .roi b.roi.gt metadata_roi0
  let call_roi : TCall A := { kind := .roi, sample := b.roi.gt, metadata := metadata_roi0 }
  let metadata_input1 := update_metadata roiRes.2 metadata_input0
  let imRes := T .im (some b.seg.input) metadata_input1
  let call_im : TCall A :=
    { kind := .im, sample := some b.seg.input, metadata := metadata_input1 }
  let metadata_gt1 := update_metadata imRes.2 metadata_gt0
  let gtStep : Except PyErr (Option Tensor3 × List Meta × List (TCall A)) :=
    match task with
    | .segmentation =>
      let gtRes := T .gt gtArrs metadata_gt1
      let stack_gt :=
        match gtRes.1 with
        | some t => some (if soft_gt then t else threshold_predictions t)
        | none => none
      .ok (stack_gt, gtRes.2,
        [{ kind := .gt, sample := gtArrs, metadata := metadata_gt1 }])
    | .classification =>
      match gtArrs with
      | none => .error .typeError
      | some [] => .error .indexError
      | some (g0 :: _) => .ok (some (fromArr g0), metadata_gt1, [])
  match gtStep with
  | .error e => .error e
  | .ok (stack_gt, metadata_gt2, gtCalls) =>
    let trace := [call_roi, call_im] ++ gtCalls
    match co with
    | some coord =>
      let shape_x := (coord.x_max - coord.x_min).toNat
      let shape_y := (coord.y_max - coord.y_min).toNat
      let metadata_input3 := imRes.2.map
        (Meta.set ("coord") [coord.x_min, coord.x_max, coord.y_min, coord.y_max])
      match imRes.1 with
      | none => .error .typeError
      | some tIn =>
        let inp := if tIn.channels = 0 then zerosT 0 shape_x shape_y
          else slice3 tIn coord.x_min coord.x_max coord.y_min coord.y_max
        let gtT := match stack_gt with
          | none => none
          | some tG => some (if tG.channels = 0 then zerosT 0 shape_x shape_y
              else slice3 tG coord.x_min coord.x_max coord.y_min coord.y_max)
        let roiT := match roiRes.1 with
          | none => none
          | some tR => some (if tR.channels = 0 then zerosT 0 shape_x shape_y
              else slice3 tR coord.x_min coord.x_max coord.y_min coord.y_max)
        let s : Sample :=
          { input := some inp
            gt := gtT
            roi := roiT
            input_metadata := metadata_input3
            gt_metadata := metadata_gt2
            roi_metadata := roiRes.2 }
        .ok (if isDropout then dropoutF s else s, trace)
    | none =>
      let s : Sample :=
        { input := imRes.1
          gt := stack_gt
          roi := roiRes.1
          input_metadata := imRes.2
          gt_metadata := metadata_gt2
          roi_metadata := roiRes.2 }
      .ok (if isDropout then dropoutF s else s, trace)

/-- Model of `__getitem__` (lines 176-286): resolve the index entry, resolve
the rater, then assemble the sample.  The deep copies of the source are
identities in this pure embedding. -/
def getitem {A : Type} (ds : Dataset2D A) (T : TransformFn A) (rand : ℕ)
    (dropoutF : Sample → Sample) (fromArr : A → Tensor3) (index : ℤ) :
    Except PyErr (Sample × List (TCall A)) :=
  match resolveEntry ds index with
  | .error e => .error e
  | .ok (b, co) =>
    match resolveRater rand b.seg.gt with
    | .error e => .error e
    | .ok (gtArrs, gtMetas) =>
      processBundle T ds.task ds.soft_gt ds.is_input_dropout dropoutF fromArr
        b gtArrs gtMetas co

/-- Processing of one already-looked-up index entry: the whole of
`__getitem__` except the initial `self.indexes[index]` subscription (the
mode-dependent entry dispatch and handler lookup of lines 186-190, the rater
resolution of lines 192-200, and the assembly of lines 202-286).  `getitem`
is exactly the index lookup followed by this function. -/
def fetchEntry {A : Type} (ds : Dataset2D A) (T : TransformFn A) (rand : ℕ)
    (dropoutF : Sample → Sample) (fromArr : A → Tensor3) (e : IndexEntry A) :
    Except PyErr (Sample × List (TCall A)) :=
  let resolved : Except PyErr (Bundle A × Option PatchRecord) :=
    if ds.is2dPatch then
      match e with
      | .patch coord =>
        match ds.handlers.get? coord.handler_index with
        | none => .error .indexError
        | some b => .ok (b, some coord)
      | .whole _ => .error .keyError
    else
      match e with
      | .whole b => .ok (b, none)
      | .patch _ => .error .valueError
  match resolved with
  | .error e2 => .error e2
  | .ok (b, co) =>
    match resolveRater rand b.seg.gt with
    | .error e2 => .error e2
    | .ok (gtArrs, gtMetas) =>
      processBundle T ds.task ds.soft_gt ds.is_input_dropout dropoutF fromArr
        b gtArrs gtMetas co

/-! ## Concrete instances used for evaluations and witnesses -/

/-- A concrete 1-channel 2×2 tensor of ones. -/
def tIn0 : Tensor3 :=
  { channels := 1, height := 2, width := 2, data := fun _ _ _ => 1 }

/-- A minimal concrete transform: ignores inputs, returns `tIn0` and passes
the metadata through. -/
def constT : TransformFn ℕ :=
  fun _ _ m => (some tIn0, m)

/-- A minimal concrete bundle: one input channel, no ground truth, no ROI. -/
def bundle0 : Bundle ℕ :=
  { seg := { input := [7], gt := none, input_metadata := none },
    roi := { gt := none, gt_metadata := none } }

/-- A minimal concrete no-patch dataset holding one slice. -/
def ds0 : Dataset2D ℕ :=
  { is2dPatch := false, indexes := [.whole bundle0], handlers := [],
    task := .segmentation, soft_gt := false, is_input_dropout := false }

/-- A concrete patch-mode dataset: one patch record asking for the window
`[0,4) × [0,4)` of handler `0`. -/
def ds1 : Dataset2D ℕ :=
  { is2dPatch := true,
    indexes := [.patch { x_min := 0, x_max := 4, y_min := 0, y_max := 4, handler_index := 0 }],
    handlers := [bundle0],
    task := .segmentation, soft_gt := false, is_input_dropout := false }

/-- A concrete stand-in for the classification label packaging. -/
def fromArr0 : ℕ → Tensor3 := fun _ => zerosT 1 1 1

/-- A concrete multi-rater bundle: two label classes with two raters each
(arrays are tagged `10/11` for class 0 and `20/21` for class 1, the second
digit being the rater). -/
def bundleMR : Bundle ℕ :=
  { seg :=
      { input := [7]
        gt := some (.multi [[10, 11], [20, 21]]
          [[Meta.empty, Meta.empty], [Meta.empty, Meta.empty]])
        input_metadata := none }
    roi := { gt := none, gt_metadata := none } }

/-- A concrete no-patch dataset holding the multi-rater slice. -/
def dsMR : Dataset2D ℕ :=
  { is2dPatch := false, indexes := [.whole bundleMR], handlers := [],
    task := .segmentation, soft_gt := false, is_input_dropout := false }

/-! ## Transforms: `ROICrop2D` and `DilateGT` (src/ivadomed/transforms.py) -/

/-- A 2D image (PIL image / numpy 2D array).  The pixel at column `x`, row
`y` is `px x y`; numpy indexing `arr[r][c]` corresponds to `px c r`. -/
structure Img where
  width : ℕ
  height : ℕ
  px : ℕ → ℕ → ℚ

/-- Bounds-checked read used by zero-padding crops: pixels outside the image
read as `0`. -/
def Img.getPx (img : Img) (x y : ℤ) : ℚ :=
  if 0 ≤ x ∧ x < img.width ∧ 0 ≤ y ∧ y < img.height
  then img.px x.toNat y.toNat else 0

/-- Model of `torchvision.transforms.functional.crop(img, top, left, height,
width)`: a `w × h` window whose pixel `(x, y)` reads the source at
`(left + x, top + y)`, zero-padded outside the source. -/
def cropImg (img : Img) (top left : ℤ) (h w : ℕ) : Img :=
  { width := w, height := h, px := fun x y => img.getPx (left + x) (top + y) }

/-- Total intensity `np.sum(arr)` of an image. -/
def Img.mass (img : Img) : ℚ :=
  ((List.range img.height).map (fun y =>
    ((List.range img.width).map (fun x => img.px x y)).sum)).sum

/-- First component (mean row index) of
`scipy.ndimage.measurements.center_of_mass(np.array(img))`. -/
def Img.comRow (img : Img) : ℚ :=
  (((List.range img.height).map (fun y : ℕ =>
    ((List.range img.width).map (fun x : ℕ => (y : ℚ) * img.px x y)).sum)).sum) / img.mass

/-- Second component (mean column index) of `center_of_mass`. -/
def Img.comCol (img : Img) : ℚ :=
  (((List.range img.height).map (fun y : ℕ =>
    ((List.range img.width).map (fun x : ℕ => (x : ℚ) * img.px x y)).sum)).sum) / img.mass

/-- Python 3 `round` of a rational: nearest integer, ties to even. -/
def pyRound (q : ℚ) : ℤ :=
  if q - ⌊q⌋ < 1/2 then ⌊q⌋
  else if 1/2 < q - ⌊q⌋ then ⌊q⌋ + 1
  else if ⌊q⌋ % 2 = 0 then ⌊q⌋ else ⌊q⌋ + 1

/-- The `sample` dict fields handled by `ROICrop2D.__call__`. -/
structure CropSample where
  input : Img
  gt : Img
  roi : Img

/-- Model of `ROICrop2D.__call__` (transforms.py, lines 24-56).  The crop
corner comes from the rounded center of mass of the ROI (the code binds the
first center-of-mass component, the row mean, to `x_roi`, and uses `fh =
y_roi - th_half`, `fw = x_roi - tw_half`).  Line 45 rebinds `input_data` to
the cropped input, and line 51 computes the ground-truth crop as
`F.crop(input_data, fh, fw, th, tw)` — reading the **already-cropped input**,
not the ground-truth buffer `gt_data` read at line 49. -/
def roiCrop2D (s : CropSample) (size : ℕ × ℕ) (labeled : Bool) : CropSample :=
  let th := size.1
  let tw := size.2
  let th_half := pyRound ((th : ℚ) / 2)
  let tw_half := pyRound ((tw : ℚ) / 2)
  let x_roi := pyRound s.roi.comRow
  let y_roi := pyRound s.roi.comCol
  let fh := y_roi - th_half
  let fw := x_roi - tw_half
  let input2 := cropImg s.input fh fw th tw
  if labeled then
    { input := input2, gt := cropImg input2 fh fw th tw, roi := s.roi }
  else
    { input := input2, gt := s.gt, roi := s.roi }

/-- The ground-truth crop the spec prescribes: the same `(fh, fw, th, tw)`
window, read from the ground-truth buffer itself. -/
def roiCrop2D_gt_spec (s : CropSample) (size : ℕ × ℕ) : Img :=
  let th := size.1
  let tw := size.2
  let th_half := pyRound ((th : ℚ) / 2)
  let tw_half := pyRound ((tw : ℚ) / 2)
  let x_roi := pyRound s.roi.comRow
  let y_roi := pyRound s.roi.comCol
  let fh := y_roi - th_half
  let fw := x_roi - tw_half
  cropImg s.gt fh fw th tw

/-- Model of `DilateGT.__call__` (transforms.py, lines 158-179).  When
`dil_factor > 0` and the ground truth has nonzero sum, the code enters
`dilate_arr`; with a nonzero mask `scipy.ndimage.label` finds at least one
object, so line 102 executes `math.sqrt(...)` — but `transforms.py` never
imports `math`, so the call raises `NameError` before producing anything.
Otherwise the sample is returned unchanged. -/
def dilateGT (dil_factor : ℚ) (gt : Img) : Except PyErr Img :=
  if 0 < dil_factor ∧ gt.mass ≠ 0 then .error .nameError
  else .ok gt

/-- A constant-valued image. -/
def constImg (w h : ℕ) (v : ℚ) : Img := { width := w, height := h, px := fun _ _ => v }

/-- A 2×2 ROI with a single foreground pixel at `(1, 1)`, so its center of
mass is exactly `(1, 1)`. -/
def roi0 : Img :=
  { width := 2, height := 2, px := fun x y => if x = 1 ∧ y = 1 then 1 else 0 }

/-- A concrete crop sample: constant-5 input, constant-7 ground truth, and
`roi0`. -/
def cropSample0 : CropSample :=
  { input := constImg 4 4 5, gt := constImg 4 4 7, roi := roi0 }

/-- A 2×2 binary lesion mask with one foreground pixel. -/
def gtLesion0 : Img :=
  { width := 2, height := 2, px := fun x y => if x = 1 ∧ y = 0 then 1 else 0 }

/-! ## Lemmas about the tiling loop -/

theorem pyRangeLen_succ (stop step : ℤ) (hs : 0 < step) (hstop : 0 < stop) :
    pyRangeLen stop step = pyRangeLen (stop - step) step + 1 := by
  unfold pyRangeLen
  rw [if_pos hs, if_pos hs]
  have hsub : (stop - step).toNat = stop.toNat - step.toNat := by omega
  rw [hsub]
  have hs1 : 1 ≤ step.toNat := by omega
  have ht1 : 1 ≤ stop.toNat := by omega
  rcases le_or_lt stop.toNat step.toNat with h | h
  · have h0 : stop.toNat - step.toNat = 0 := by omega
    rw [h0]
    have hL : (stop.toNat + step.toNat - 1) / step.toNat = 1 := by
      apply Nat.div_eq_of_lt_le <;> omega
    have hR : (0 + step.toNat - 1) / step.toNat = 0 := by
      apply Nat.div_eq_of_lt
      omega
    omega
  · have hsplit : stop.toNat + step.toNat - 1 =
        (stop.toNat - step.toNat + step.toNat - 1) + step.toNat := by omega
    rw [hsplit, Nat.add_div_right _ (by omega : 0 < step.toNat)]

theorem specStartsAux_eq (S : ℤ) (hs : 0 < S) :
    ∀ (n : ℕ) (stop start : ℤ), (stop - start).toNat ≤ n →
      specStartsAux stop S start =
        (List.range (pyRangeLen (stop - start) S)).map (fun k : ℕ => start + (k : ℤ) * S) := by
  intro n
  induction n with
  | zero =>
    intro stop start hle
    have hns : ¬ start < stop := by omega
    rw [specStartsAux, dif_neg (by tauto)]
    have h0 : pyRangeLen (stop - start) S = 0 := by
      unfold pyRangeLen
      rw [if_pos hs]
      apply Nat.div_eq_of_lt
      omega
    rw [h0]
    rfl
  | succ n ih =>
    intro stop start hle
    by_cases hlt : start < stop
    · rw [specStartsAux, dif_pos ⟨hs, hlt⟩]
      have hlen : pyRangeLen (stop - start) S = pyRangeLen (stop - start - S) S + 1 :=
        pyRangeLen_succ _ _ hs (by omega)
      rw [hlen, List.range_succ_eq_map, List.map_cons, List.map_map]
      have hrec := ih stop (start + S) (by omega)
      have harg : stop - (start + S) = stop - start - S := by ring
      rw [harg] at hrec
      rw [show (start + (0:ℕ) * S : ℤ) = start by push_cast; ring]
      congr 1
      rw [hrec]
      apply List.map_congr_left
      intro k _
      simp only [Function.comp_apply]
      push_cast
      ring
    · rw [specStartsAux, dif_neg (by tauto)]
      have h0 : pyRangeLen (stop - start) S = 0 := by
        unfold pyRangeLen
        rw [if_pos hs]
        apply Nat.div_eq_of_lt
        omega
      rw [h0]
      rfl

theorem pyRange_eq_specStartsAux (stop S : ℤ) (hs : 0 < S) :
    pyRange stop S = specStartsAux stop S 0 := by
  rw [specStartsAux_eq S hs (stop - 0).toNat stop 0 le_rfl]
  unfold pyRange
  rw [show stop - 0 = stop by ring]
  apply List.map_congr_left
  intro k _
  ring

theorem axisStarts_eq_specAxisStarts (size L S : ℤ) (hs : 0 < S) :
    axisStarts size L S = specAxisStarts size L S := by
  unfold axisStarts specAxisStarts
  rw [pyRange_eq_specStartsAux _ _ hs]

theorem mem_pyRange {stop S x : ℤ} :
    x ∈ pyRange stop S ↔ ∃ k : ℕ, k < pyRangeLen stop S ∧ x = (k : ℤ) * S := by
  unfold pyRange
  constructor
  · intro hx
    rcases List.mem_map.1 hx with ⟨k, hk, rfl⟩
    exact ⟨k, List.mem_range.1 hk, rfl⟩
  · rintro ⟨k, hk, rfl⟩
    exact List.mem_map.2 ⟨k, List.mem_range.2 hk, rfl⟩

theorem pyRangeLen_bounds (stop S : ℤ) (hs : 0 < S) (hstop : 0 < stop) :
    stop ≤ (pyRangeLen stop S : ℤ) * S ∧ (pyRangeLen stop S : ℤ) * S < stop + S := by
  have hs1 : 1 ≤ S.toNat := by omega
  have ht1 : 1 ≤ stop.toNat := by omega
  have hnat : stop.toNat ≤ pyRangeLen stop S * S.toNat ∧
      pyRangeLen stop S * S.toNat < stop.toNat + S.toNat := by
    unfold pyRangeLen
    rw [if_pos hs]
    obtain ⟨a, hadef⟩ : ∃ a, stop.toNat + S.toNat - 1 = a := ⟨_, rfl⟩
    rw [hadef]
    have ha1 : a + 1 = stop.toNat + S.toNat := by omega
    have hmod := Nat.div_add_mod a S.toNat
    have hmlt : a % S.toNat < S.toNat := Nat.mod_lt _ (by omega)
    have hX : S.toNat * (a / S.toNat) ≤ a := Nat.le.intro hmod
    constructor
    · rw [Nat.mul_comm]
      linarith
    · rw [Nat.mul_comm]
      obtain ⟨X, hXdef⟩ : ∃ X, S.toNat * (a / S.toNat) = X := ⟨_, rfl⟩
      rw [hXdef] at hX
      rw [hXdef]
      omega
  obtain ⟨h1, h2⟩ := hnat
  have hmulcast : ((pyRangeLen stop S * S.toNat : ℕ) : ℤ) = (pyRangeLen stop S : ℤ) * S := by
    push_cast
    rw [show ((S.toNat : ℤ)) = S by omega]
  constructor
  · have hle := (Nat.cast_le (α := ℤ)).2 h1
    rw [hmulcast] at hle
    have hc : ((stop.toNat : ℤ)) = stop := by omega
    rw [hc] at hle
    exact hle
  · have hlt := (Nat.cast_lt (α := ℤ)).2 h2
    rw [hmulcast] at hlt
    have hc : ((stop.toNat + S.toNat : ℕ) : ℤ) = stop + S := by push_cast; omega
    rw [hc] at hlt
    exact hlt

theorem axisStarts_bounds (size L S x : ℤ) (hs : 0 < S) (_hSL : S ≤ L) (hLs : L ≤ size)
    (hx : x ∈ axisStarts size L S) : 0 ≤ x ∧ x + L ≤ size := by
  unfold axisStarts at hx
  rcases List.mem_map.1 hx with ⟨c, hc, rfl⟩
  rcases mem_pyRange.1 hc with ⟨k, _, rfl⟩
  unfold clampStart
  split
  · omega
  · rename_i h
    have hk0 : (0 : ℤ) ≤ (k : ℤ) * S := mul_nonneg (by positivity) (le_of_lt hs)
    exact ⟨hk0, not_lt.1 h⟩

theorem axisStarts_cover (size L S p : ℤ) (hs : 0 < S) (hSL : S ≤ L) (hLs : L ≤ size)
    (hp0 : 0 ≤ p) (hp : p < size) :
    ∃ x ∈ axisStarts size L S, x ≤ p ∧ p < x + L := by
  have hstop : 0 < size - L + S := by omega
  obtain ⟨hn1, hn2⟩ := pyRangeLen_bounds (size - L + S) S hs hstop
  have hnpos : 0 < pyRangeLen (size - L + S) S := by
    by_contra h
    have h0 : pyRangeLen (size - L + S) S = 0 := by omega
    rw [h0] at hn1
    push_cast at hn1
    omega
  have hq1 : ((p.toNat / S.toNat : ℕ) : ℤ) * S ≤ p := by
    have h := Nat.div_mul_le_self p.toNat S.toNat
    calc ((p.toNat / S.toNat : ℕ) : ℤ) * S
        = ((p.toNat / S.toNat * S.toNat : ℕ) : ℤ) := by
          push_cast
          rw [show ((S.toNat : ℤ)) = S by omega]
      _ ≤ ((p.toNat : ℕ) : ℤ) := by exact_mod_cast h
      _ = p := by omega
  have hq2 : p < ((p.toNat / S.toNat : ℕ) : ℤ) * S + S := by
    have hmod := Nat.div_add_mod p.toNat S.toNat
    have hmlt : p.toNat % S.toNat < S.toNat := Nat.mod_lt _ (by omega)
    have h : p.toNat < p.toNat / S.toNat * S.toNat + S.toNat := by
      rw [Nat.mul_comm]
      linarith
    calc p = ((p.toNat : ℕ) : ℤ) := by omega
      _ < ((p.toNat / S.toNat * S.toNat + S.toNat : ℕ) : ℤ) := by exact_mod_cast h
      _ = ((p.toNat / S.toNat : ℕ) : ℤ) * S + S := by
          push_cast
          rw [show ((S.toNat : ℤ)) = S by omega]
  rcases lt_or_le (p.toNat / S.toNat) (pyRangeLen (size - L + S) S) with hcase | hcase
  · refine ⟨clampStart size L (((p.toNat / S.toNat : ℕ) : ℤ) * S),
      List.mem_map.2 ⟨_, mem_pyRange.2 ⟨_, hcase, rfl⟩, rfl⟩, ?_⟩
    unfold clampStart
    split
    · rename_i hclamp
      constructor
      · linarith
      · omega
    · rename_i hnoc
      exact ⟨hq1, by linarith⟩
  · have hm : ((pyRangeLen (size - L + S) S - 1 : ℕ) : ℤ) =
        (pyRangeLen (size - L + S) S : ℤ) - 1 := by omega
    have hqS : (pyRangeLen (size - L + S) S : ℤ) * S ≤ ((p.toNat / S.toNat : ℕ) : ℤ) * S :=
      mul_le_mul_of_nonneg_right (by exact_mod_cast hcase) (le_of_lt hs)
    have hple : size - L < p := by linarith
    have hxeq : clampStart size L (((pyRangeLen (size - L + S) S - 1 : ℕ) : ℤ) * S) = size - L := by
      unfold clampStart
      split
      · rfl
      · rename_i hno
        rw [hm] at hno ⊢
        have : ((pyRangeLen (size - L + S) S : ℤ) - 1) * S = size - L := by
          push_cast at *
          nlinarith
        exact this
    refine ⟨clampStart size L (((pyRangeLen (size - L + S) S - 1 : ℕ) : ℤ) * S),
      List.mem_map.2 ⟨_, mem_pyRange.2 ⟨_, by omega, rfl⟩, rfl⟩, ?_⟩
    rw [hxeq]
    constructor
    · linarith
    · omega

theorem getD_pair_zero (a b d : ℤ) : [a, b].getD 0 d = a := rfl

theorem getD_pair_one (a b d : ℤ) : [a, b].getD 1 d = b := rfl

theorem mem_tileHandler {L0 L1 S0 S1 H W : ℤ} {i : ℕ} {r : PatchRecord} :
    r ∈ tileHandler [L0, L1] [S0, S1] (H, W) i ↔
      ∃ x ∈ axisStarts H L0 S0, ∃ y ∈ axisStarts W L1 S1,
        r = ⟨x, x + L0, y, y + L1, i⟩ := by
  unfold tileHandler
  simp only [getD_pair_zero, getD_pair_one]
  constructor
  · intro hr
    rcases List.mem_flatMap.1 hr with ⟨x, hx, hr2⟩
    rcases List.mem_map.1 hr2 with ⟨y, hy, rfl⟩
    exact ⟨x, hx, y, hy, rfl⟩
  · rintro ⟨x, hx, y, hy, rfl⟩
    exact List.mem_flatMap.2 ⟨x, hx, List.mem_map.2 ⟨y, hy, rfl⟩⟩

theorem checkAxis_none_iff (L S size : ℤ) :
    checkAxis L S size = none ↔ 0 < S ∧ S ≤ L ∧ L ≤ size := by
  unfold checkAxis
  split
  · rename_i h
    constructor
    · intro hc
      simp at hc
    · intro hc
      exact absurd hc (by omega)
  · rename_i h
    split
    · rename_i h2
      constructor
      · intro hc
        simp at hc
      · intro hc
        exact absurd hc (by omega)
    · rename_i h2
      constructor
      · intro _
        omega
      · intro _
        rfl

theorem validateHandler_none_iff (length stride : List ℤ) (sh : ℤ × ℤ) :
    validateHandler length stride sh = none ↔ ¬ badConfig length stride sh := by
  unfold validateHandler
  split
  · rename_i hdim
    constructor
    · intro hc
      simp at hc
    · intro h
      exact absurd (by unfold badConfig; tauto) h
  · rename_i hdim
    cases h0 : checkAxis (length.getD 0 0) (stride.getD 0 0) sh.1 with
    | some e =>
      simp only [h0]
      have hne : ¬ (0 < stride.getD 0 0 ∧ stride.getD 0 0 ≤ length.getD 0 0 ∧
          length.getD 0 0 ≤ sh.1) := by
        rw [← checkAxis_none_iff, h0]
        simp
      unfold badConfig
      constructor
      · intro hc
        simp at hc
      · intro h
        exact absurd (by omega) h
    | none =>
      simp only [h0]
      rw [checkAxis_none_iff]
      have hpos0 := (checkAxis_none_iff (length.getD 0 0) (stride.getD 0 0) sh.1).1 h0
      unfold badConfig
      constructor
      · intro hc
        omega
      · intro h
        omega

theorem prepareIndicesAux_ok_iff (length stride : List ℤ) :
    ∀ (shapes : List (ℤ × ℤ)) (i : ℕ),
      (∃ recs, prepareIndicesAux length stride shapes i = .ok recs) ↔
        ∀ sh ∈ shapes, validateHandler length stride sh = none := by
  intro shapes
  induction shapes with
  | nil =>
    intro i
    constructor
    · intro _ sh hsh
      simp at hsh
    · intro _
      exact ⟨[], rfl⟩
  | cons sh rest ih =>
    intro i
    constructor
    · rintro ⟨recs, hrecs⟩ s hs
      unfold prepareIndicesAux at hrecs
      cases hv : validateHandler length stride sh with
      | some e =>
        rw [hv] at hrecs
        simp at hrecs
      | none =>
        rw [hv] at hrecs
        rcases List.mem_cons.1 hs with rfl | hs2
        · exact hv
        · cases hr : prepareIndicesAux length stride rest (i + 1) with
          | error e =>
            rw [hr] at hrecs
            simp at hrecs
          | ok tail =>
            exact (ih (i + 1)).1 ⟨tail, hr⟩ s hs2
    · intro hall
      have hv : validateHandler length stride sh = none := hall sh (by simp)
      obtain ⟨tail, htail⟩ := (ih (i + 1)).2 (fun s hs => hall s (by simp [hs]))
      refine ⟨tileHandler length stride sh i ++ tail, ?_⟩
      unfold prepareIndicesAux
      rw [hv, htail]

theorem prepareIndices_singleton (length stride : List ℤ) (sh : ℤ × ℤ)
    (hv : validateHandler length stride sh = none) :
    prepareIndices length stride [sh] = .ok (tileHandler length stride sh 0) := by
  unfold prepareIndices
  unfold prepareIndicesAux
  rw [hv]
  unfold prepareIndicesAux
  simp

/-! ## Claims about the index builder -/

/-- C1, counterexample to the claim's concrete example: for `size = 10`,
`L = 4`, `S = 3` the per-axis start sequence emitted by `prepare_indices` is
`[0, 3, 6]`, not `[0, 3, 6, 6]`: the candidate `9` is excluded by
`range(0, 10 - 4 + 3, 3)` (since `9 < 9` fails), so no clamp and no duplicate
final tile occur, and the handler yields `3 × 3 = 9` patches, not 16. -/
theorem C1_counterexample_starts_10_4_3 :
    axisStarts 10 4 3 = [0, 3, 6] ∧ axisStarts 10 4 3 ≠ [0, 3, 6, 6] ∧
      (tileHandler [4, 4] [3, 3] (10, 10) 0).length = 9 := by
  refine ⟨by decide, by decide, by decide⟩

/-- C1 (amended): for positive strides, the records that `prepare_indices`
emits for a handler of shape `(H, W)` are exactly the Cartesian product of the
per-axis start sequences described by the spec — candidates `0, S, 2S, …`
generated while `start < size - L + S`, each start with `start + L > size`
clamped down to `size - L` — and for `size = 10`, `L = 4`, `S = 3` that
per-axis start sequence is `[0, 3, 6]` (no duplicated final tile). -/
theorem C1_amended_tiling_matches_spec_starts (H W L0 L1 S0 S1 : ℤ) (i : ℕ)
    (hS0 : 0 < S0) (hS1 : 0 < S1) :
    tileHandler [L0, L1] [S0, S1] (H, W) i =
      (specAxisStarts H L0 S0).flatMap (fun x =>
        (specAxisStarts W L1 S1).map (fun y =>
          { x_min := x, x_max := x + L0, y_min := y, y_max := y + L1,
            handler_index := i })) ∧
      axisStarts 10 4 3 = [0, 3, 6] := by
  constructor
  · unfold tileHandler
    simp only [getD_pair_zero, getD_pair_one]
    rw [axisStarts_eq_specAxisStarts H L0 S0 hS0, axisStarts_eq_specAxisStarts W L1 S1 hS1]
  · decide

theorem C1_amended_witness :
    tileHandler [4, 4] [3, 3] (10, 10) 0 =
      (specAxisStarts 10 4 3).flatMap (fun x =>
        (specAxisStarts 10 4 3).map (fun y =>
          { x_min := x, x_max := x + 4, y_min := y, y_max := y + 4,
            handler_index := 0 })) ∧
      axisStarts 10 4 3 = [0, 3, 6] :=
  C1_amended_tiling_matches_spec_starts 10 10 4 4 3 3 0 (by decide) (by decide)

/-- C2: under the build preconditions `0 < S ≤ L ≤ size` per axis, the build
succeeds and every emitted record has window sizes exactly `(L0, L1)`, lies
inside `[0, H) × [0, W)`, and the emitted windows jointly cover every point of
the `(H, W)` rectangle. -/
theorem C2_patch_invariants_and_coverage (H W L0 L1 S0 S1 : ℤ)
    (hS0 : 0 < S0) (hSL0 : S0 ≤ L0) (hLH : L0 ≤ H)
    (hS1 : 0 < S1) (hSL1 : S1 ≤ L1) (hLW : L1 ≤ W) :
    ∃ recs, prepareIndices [L0, L1] [S0, S1] [(H, W)] = .ok recs ∧
      (∀ r ∈ recs, r.x_max - r.x_min = L0 ∧ r.y_max - r.y_min = L1 ∧
        0 ≤ r.x_min ∧ r.x_max ≤ H ∧ 0 ≤ r.y_min ∧ r.y_max ≤ W) ∧
      (∀ p q : ℤ, 0 ≤ p → p < H → 0 ≤ q → q < W →
        ∃ r ∈ recs, r.x_min ≤ p ∧ p < r.x_max ∧ r.y_min ≤ q ∧ q < r.y_max) := by
  have hv : validateHandler [L0, L1] [S0, S1] (H, W) = none := by
    rw [validateHandler_none_iff]
    unfold badConfig
    simp only [getD_pair_zero, getD_pair_one, List.length_cons, List.length_nil]
    omega
  refine ⟨tileHandler [L0, L1] [S0, S1] (H, W) 0,
    prepareIndices_singleton _ _ _ hv, ?_, ?_⟩
  · intro r hr
    rcases mem_tileHandler.1 hr with ⟨x, hx, y, hy, rfl⟩
    obtain ⟨hx0, hxL⟩ := axisStarts_bounds H L0 S0 x hS0 hSL0 hLH hx
    obtain ⟨hy0, hyL⟩ := axisStarts_bounds W L1 S1 y hS1 hSL1 hLW hy
    exact ⟨by ring, by ring, hx0, hxL, hy0, hyL⟩
  · intro p q hp0 hp hq0 hq
    obtain ⟨x, hx, hxp, hpx⟩ := axisStarts_cover H L0 S0 p hS0 hSL0 hLH hp0 hp
    obtain ⟨y, hy, hyq, hqy⟩ := axisStarts_cover W L1 S1 q hS1 hSL1 hLW hq0 hq
    exact ⟨{ x_min := x, x_max := x + L0, y_min := y, y_max := y + L1, handler_index := 0 },
      mem_tileHandler.2 ⟨x, hx, y, hy, rfl⟩, hxp, hpx, hyq, hqy⟩

theorem C2_witness :
    ∃ recs, prepareIndices [4, 4] [3, 3] [((10 : ℤ), (10 : ℤ))] = .ok recs ∧
      (∀ r ∈ recs, r.x_max - r.x_min = 4 ∧ r.y_max - r.y_min = 4 ∧
        0 ≤ r.x_min ∧ r.x_max ≤ 10 ∧ 0 ≤ r.y_min ∧ r.y_max ≤ 10) ∧
      (∀ p q : ℤ, 0 ≤ p → p < 10 → 0 ≤ q → q < 10 →
        ∃ r ∈ recs, r.x_min ≤ p ∧ p < r.x_max ∧ r.y_min ≤ q ∧ q < r.y_max) :=
  C2_patch_invariants_and_coverage 10 10 4 4 3 3
    (by decide) (by decide) (by decide) (by decide) (by decide) (by decide)

/-- C3, counterexample: with patching requested (`length` nonempty) but a
malformed, non-2-dimensional `length = [5]`, index building over an empty
handler list succeeds instead of raising: the validation runs only inside the
per-handler loop. -/
theorem C3_counterexample_empty_handler_list :
    prepareIndices [5] [3] [] = .ok [] ∧ ([5] : List ℤ).length ≠ 2 :=
  ⟨rfl, by decide⟩

/-- C3 (amended): index building fails with a `ConfigurationError` iff some
accepted handler fails validation — `length`/`stride` not 2-dimensional, a
stride component `≤ 0` or exceeding the length component, or a length
component exceeding that handler's shape; otherwise (in particular whenever
the handler list is empty) it succeeds. -/
theorem C3_amended_error_iff_malformed (length stride : List ℤ)
    (shapes : List (ℤ × ℤ)) :
    ((∃ e, prepareIndices length stride shapes = .error e) ↔
      ∃ sh ∈ shapes, badConfig length stride sh) ∧
    ((¬ ∃ sh ∈ shapes, badConfig length stride sh) →
      ∃ recs, prepareIndices length stride shapes = .ok recs) := by
  have hok := prepareIndicesAux_ok_iff length stride shapes 0
  have hiff : (∃ e, prepareIndices length stride shapes = .error e) ↔
      ∃ sh ∈ shapes, badConfig length stride sh := by
    constructor
    · rintro ⟨e, he⟩
      by_contra hno
      push_neg at hno
      have hall : ∀ sh ∈ shapes, validateHandler length stride sh = none :=
        fun sh hs => (validateHandler_none_iff length stride sh).2 (hno sh hs)
      obtain ⟨recs, hr⟩ := hok.2 hall
      rw [show prepareIndicesAux length stride shapes 0 =
        prepareIndices length stride shapes from rfl] at hr
      rw [he] at hr
      simp at hr
    · rintro ⟨sh, hsh, hbad⟩
      cases hres : prepareIndices length stride shapes with
      | error e => exact ⟨e, rfl⟩
      | ok recs =>
        exfalso
        have hall := hok.1 ⟨recs, hres⟩
        exact (validateHandler_none_iff length stride sh).1 (hall sh hsh) hbad
  refine ⟨hiff, ?_⟩
  intro hno
  cases hres : prepareIndices length stride shapes with
  | error e => exact absurd (hiff.1 ⟨e, hres⟩) hno
  | ok recs => exact ⟨recs, rfl⟩

theorem C3_amended_witness :
    ((∃ e, prepareIndices [4, 4] [5, 5] [((10 : ℤ), (10 : ℤ))] = .error e) ↔
      ∃ sh ∈ [((10 : ℤ), (10 : ℤ))], badConfig [4, 4] [5, 5] sh) ∧
    ((¬ ∃ sh ∈ [((10 : ℤ), (10 : ℤ))], badConfig [4, 4] [5, 5] sh) →
      ∃ recs, prepareIndices [4, 4] [5, 5] [((10 : ℤ), (10 : ℤ))] = .ok recs) :=
  C3_amended_error_iff_malformed [4, 4] [5, 5] [((10 : ℤ), (10 : ℤ))]

/-- C10: when zero slices were accepted (empty handler list), the patch index
build runs its per-handler loop zero times, so it completes without any
validation error — whatever `length` and `stride` contain — and the resulting
dataset (`self.indexes`, whose length is `__len__`) is empty. -/
theorem C10_no_validation_without_handlers :
    ∀ length stride : List ℤ,
      prepareIndices length stride [] = .ok ([] : List PatchRecord) := by
  intro length stride
  rfl

/-! ## Lemmas about the sample assembler -/

theorem pythonGet_none_iff {α : Type} (l : List α) (i : ℤ) :
    pythonGet l i = none ↔ i < -(l.length : ℤ) ∨ (l.length : ℤ) ≤ i := by
  unfold pythonGet
  split
  · rename_i h
    rw [List.get?_eq_none]
    omega
  · rename_i h
    split
    · rename_i h2
      rw [List.get?_eq_none]
      omega
    · rename_i h2
      constructor
      · intro _
        omega
      · intro _
        rfl

theorem pythonGet_eq_of_neg {α : Type} (l : List α) (i : ℤ)
    (hlo : -(l.length : ℤ) ≤ i) (hhi : i < 0) :
    pythonGet l i = pythonGet l (i + l.length) := by
  unfold pythonGet
  rw [if_neg (by omega), if_pos (by omega), if_pos (by omega)]
  congr 1
  omega

theorem pythonGet_some_mem {α : Type} (l : List α) (i : ℤ) (e : α)
    (h : pythonGet l i = some e) : e ∈ l := by
  unfold pythonGet at h
  split at h
  · exact List.get?_mem h
  · split at h
    · exact List.get?_mem h
    · simp at h

theorem getitem_eq_fetchEntry {A : Type} (ds : Dataset2D A) (T : TransformFn A)
    (rand : ℕ) (dropoutF : Sample → Sample) (fromArr : A → Tensor3) (i : ℤ) :
    getitem ds T rand dropoutF fromArr i =
      match pythonGet ds.indexes i with
      | none => .error .indexError
      | some e => fetchEntry ds T rand dropoutF fromArr e := by
  unfold getitem resolveEntry fetchEntry
  cases hp : pythonGet ds.indexes i with
  | none => rfl
  | some e => rfl

theorem get?_eq_some_getD {α : Type} (l : List α) (n : ℕ) (d : α) (h : n < l.length) :
    l.get? n = some (l.getD n d) := by
  rw [List.getD_eq_getElem?_getD, List.get?_eq_getElem?]
  cases hq : l[n]? with
  | none =>
    rw [List.getElem?_eq_none_iff] at hq
    omega
  | some a => rfl

theorem resolveMulti_ok {A : Type} [Inhabited A] (rand : ℕ) :
    ∀ (classes : List (List A)) (metas : List (List Meta)),
      (∀ cl ∈ classes, rand < cl.length) →
      metas.length = classes.length →
      (∀ ml ∈ metas, rand < ml.length) →
      resolveMulti rand classes metas =
        .ok (classes.map (fun cl => cl.getD rand default),
             metas.map (fun ml => ml.getD rand Meta.empty)) := by
  intro classes
  induction classes with
  | nil =>
    intro metas _ hlen _
    have hm : metas = [] := List.length_eq_zero.1 (by simpa using hlen)
    subst hm
    rfl
  | cons cl cls ih =>
    intro metas hcl hlen hml
    cases metas with
    | nil => simp at hlen
    | cons ml mls =>
      have h1 : rand < cl.length := hcl cl (by simp)
      have h2 : rand < ml.length := hml ml (by simp)
      have hrec := ih mls (fun c hc => hcl c (by simp [hc]))
        (by simpa using hlen) (fun m hm => hml m (by simp [hm]))
      unfold resolveMulti
      rw [get?_eq_some_getD cl rand default h1, get?_eq_some_getD ml rand Meta.empty h2, hrec]
      rfl

theorem resolveRater_multi {A : Type} [Inhabited A] (rand : ℕ)
    (classes : List (List A)) (metas : List (List Meta))
    (hne : classes ≠ [])
    (hcl : ∀ cl ∈ classes, rand < cl.length)
    (hml : metas.length = classes.length)
    (hmr : ∀ ml ∈ metas, rand < ml.length) :
    resolveRater rand (some (.multi classes metas)) =
      .ok (some (classes.map (fun cl => cl.getD rand default)),
           some (metas.map (fun ml => ml.getD rand Meta.empty))) := by
  cases classes with
  | nil => exact absurd rfl hne
  | cons c cs =>
    have h1 : rand < c.length := hcl c (by simp)
    have hrm := resolveMulti_ok rand (c :: cs) metas hcl hml hmr
    unfold resolveRater
    dsimp only
    rw [if_neg (by simp), if_neg (by simp only [List.headD_cons]; omega), hrm]

theorem processBundle_seg_trace {A : Type} (T : TransformFn A) (soft dro : Bool)
    (dropoutF : Sample → Sample) (fromArr : A → Tensor3) (b : Bundle A)
    (gtArrs : Option (List A)) (gtMetas : Option (List Meta)) (co : Option PatchRecord)
    (s : Sample) (tr : List (TCall A))
    (hok : processBundle T .segmentation soft dro dropoutF fromArr b gtArrs gtMetas co
      = .ok (s, tr)) :
    tr = [{ kind := .roi, sample := b.roi.gt, metadata := b.roi.gt_metadata.getD [] },
          { kind := .im, sample := some b.seg.input,
            metadata := update_metadata (T .roi b.roi.gt (b.roi.gt_metadata.getD [])).2
              (b.seg.input_metadata.getD []) },
          { kind := .gt, sample := gtArrs,
            metadata := update_metadata
              (T .im (some b.seg.input)
                (update_metadata (T .roi b.roi.gt (b.roi.gt_metadata.getD [])).2
                  (b.seg.input_metadata.getD []))).2 (gtMetas.getD []) }] := by
  cases co with
  | none =>
    unfold processBundle at hok
    simp only [Except.ok.injEq, Prod.mk.injEq] at hok
    exact hok.2.symm
  | some coord =>
    unfold processBundle at hok
    dsimp only at hok
    cases him : (T DataKind.im (some b.seg.input)
        (update_metadata (T DataKind.roi b.roi.gt (b.roi.gt_metadata.getD [])).2
          (b.seg.input_metadata.getD []))).1 with
    | none =>
      rw [him] at hok
      simp at hok
    | some tIn =>
      rw [him] at hok
      simp only [Except.ok.injEq, Prod.mk.injEq] at hok
      exact hok.2.symm

/-! ## Claims about the sample assembler -/

/-- C7, counterexample: on a one-entry dataset the fetch position `-1` lies
outside `[0, len)`, yet `__getitem__` returns a sample instead of raising
IndexError, because Python list subscription resolves negative positions from
the back. -/
theorem C7_counterexample_negative_index :
    (getitem ds0 constT 0 id fromArr0 (-1)).isOk = true ∧
      ¬ (0 ≤ (-1 : ℤ) ∧ (-1 : ℤ) < (datasetLen ds0 : ℤ)) := by decide

/-- C7 (amended): `fetch(index, i)` raises IndexError from the index lookup
exactly when `i < -len` or `i ≥ len`; a position in `[-len, 0)` is an alias
for `i + len` (Python negative indexing); and — provided every indexed entry
assembles successfully, the claim's implicit well-formedness assumption —
every position in `[-len, len)` returns a sample. -/
theorem C7_amended_fetch_index_contract {A : Type} (ds : Dataset2D A)
    (T : TransformFn A) (rand : ℕ) (dropoutF : Sample → Sample)
    (fromArr : A → Tensor3) (i : ℤ)
    (hW : ∀ e ∈ ds.indexes, (fetchEntry ds T rand dropoutF fromArr e).isOk = true) :
    (getitem ds T rand dropoutF fromArr i = .error .indexError ↔
      (i < -(datasetLen ds : ℤ) ∨ (datasetLen ds : ℤ) ≤ i)) ∧
    (-(datasetLen ds : ℤ) ≤ i → i < 0 →
      getitem ds T rand dropoutF fromArr i =
        getitem ds T rand dropoutF fromArr (i + (datasetLen ds : ℤ))) ∧
    (0 ≤ i → i < (datasetLen ds : ℤ) →
      ∃ s tr, getitem ds T rand dropoutF fromArr i = .ok (s, tr)) := by
  have hkey : ∀ j : ℤ, ¬ (j < -(datasetLen ds : ℤ) ∨ (datasetLen ds : ℤ) ≤ j) →
      ∃ s tr, getitem ds T rand dropoutF fromArr j = .ok (s, tr) := by
    intro j hj
    have hne : pythonGet ds.indexes j ≠ none := by
      intro hc
      exact hj ((pythonGet_none_iff ds.indexes j).1 hc)
    have hge := getitem_eq_fetchEntry ds T rand dropoutF fromArr j
    cases hp : pythonGet ds.indexes j with
    | none => exact absurd hp hne
    | some e =>
      rw [hp] at hge
      have hok := hW e (pythonGet_some_mem ds.indexes j e hp)
      cases hres : fetchEntry ds T rand dropoutF fromArr e with
      | error e2 =>
        rw [hres] at hok
        simp [Except.isOk, Except.toBool] at hok
      | ok p =>
        obtain ⟨s1, tr1⟩ := p
        refine ⟨s1, tr1, ?_⟩
        rw [hge]
        exact hres
  refine ⟨⟨?_, ?_⟩, ?_, ?_⟩
  · intro herr
    by_contra hno
    obtain ⟨s, tr, hok2⟩ := hkey i hno
    rw [hok2] at herr
    simp at herr
  · intro hout
    have hnone : pythonGet ds.indexes i = none := (pythonGet_none_iff _ _).2 hout
    unfold getitem resolveEntry
    rw [hnone]
  · intro hlo hhi
    unfold getitem resolveEntry datasetLen
    rw [pythonGet_eq_of_neg ds.indexes i hlo hhi]
  · intro h0 hlt
    exact hkey i (by omega)

theorem C7_witness :
    (getitem ds0 constT 0 id fromArr0 0 = .error .indexError ↔
      ((0 : ℤ) < -(datasetLen ds0 : ℤ) ∨ (datasetLen ds0 : ℤ) ≤ (0 : ℤ))) ∧
    (-(datasetLen ds0 : ℤ) ≤ (0 : ℤ) → (0 : ℤ) < 0 →
      getitem ds0 constT 0 id fromArr0 0 =
        getitem ds0 constT 0 id fromArr0 (0 + (datasetLen ds0 : ℤ))) ∧
    (0 ≤ (0 : ℤ) → (0 : ℤ) < (datasetLen ds0 : ℤ) →
      ∃ s tr, getitem ds0 constT 0 id fromArr0 0 = .ok (s, tr)) :=
  C7_amended_fetch_index_contract ds0 constT 0 id fromArr0 0 (by decide)

/-- C4: in every completed segmentation fetch the transform pipeline is
invoked exactly three times, in the order ROI, then input (with the ROI
output metadata merged into the input metadata), then ground truth (with the
input output metadata merged into the ground-truth metadata); the merge is
the override merge — source-defined keys win, all other destination keys are
preserved. -/
theorem C4_transform_order_and_metadata_merge {A : Type} (ds : Dataset2D A)
    (T : TransformFn A) (rand : ℕ) (dropoutF : Sample → Sample)
    (fromArr : A → Tensor3) (i : ℤ) (b : Bundle A) (co : Option PatchRecord)
    (gtArrs : Option (List A)) (gtMetas : Option (List Meta))
    (s : Sample) (tr : List (TCall A))
    (hres : resolveEntry ds i = .ok (b, co))
    (hrat : resolveRater rand b.seg.gt = .ok (gtArrs, gtMetas))
    (htask : ds.task = Task.segmentation)
    (hok : getitem ds T rand dropoutF fromArr i = .ok (s, tr)) :
    tr = [{ kind := .roi, sample := b.roi.gt, metadata := b.roi.gt_metadata.getD [] },
          { kind := .im, sample := some b.seg.input,
            metadata := update_metadata (T .roi b.roi.gt (b.roi.gt_metadata.getD [])).2
              (b.seg.input_metadata.getD []) },
          { kind := .gt, sample := gtArrs,
            metadata := update_metadata
              (T .im (some b.seg.input)
                (update_metadata (T .roi b.roi.gt (b.roi.gt_metadata.getD [])).2
                  (b.seg.input_metadata.getD []))).2 (gtMetas.getD []) }] ∧
    (∀ (src d : Meta) (k : String) (v : List ℤ),
        src k = some v → mergeRec src d k = some v) ∧
    (∀ (src d : Meta) (k : String), src k = none → mergeRec src d k = d k) := by
  refine ⟨?_, ?_, ?_⟩
  · unfold getitem at hok
    rw [hres] at hok
    dsimp only at hok
    rw [hrat] at hok
    dsimp only at hok
    rw [htask] at hok
    exact processBundle_seg_trace T ds.soft_gt ds.is_input_dropout dropoutF fromArr
      b gtArrs gtMetas co s tr hok
  · intro src d k v h
    unfold mergeRec
    rw [h]
  · intro src d k h
    unfold mergeRec
    rw [h]

theorem C4_witness :
    ∃ s tr, getitem ds0 constT 0 id fromArr0 0 = Except.ok (s, tr) ∧
      tr = [{ kind := .roi, sample := none, metadata := [] },
            { kind := .im, sample := some [7], metadata := [] },
            { kind := .gt, sample := none, metadata := [] }] :=
  ⟨_, _, rfl,
    (C4_transform_order_and_metadata_merge ds0 constT 0 id fromArr0 0 bundle0
      none none none _ _ rfl rfl rfl rfl).1⟩

/-- C5: when the resolved bundle's ground truth is multi-rater, the single
drawn rater index `rand` selects, for every label class at once, both the
ground-truth array and the ground-truth metadata of that rater, and that
resolved ground truth is what the ground-truth transform call receives. -/
theorem C5_one_rater_shared_across_classes {A : Type} [Inhabited A]
    (ds : Dataset2D A) (T : TransformFn A) (rand : ℕ) (dropoutF : Sample → Sample)
    (fromArr : A → Tensor3) (i : ℤ) (b : Bundle A) (co : Option PatchRecord)
    (classes : List (List A)) (metas : List (List Meta))
    (s : Sample) (tr : List (TCall A))
    (hres : resolveEntry ds i = .ok (b, co))
    (hgt : b.seg.gt = some (.multi classes metas))
    (hne : classes ≠ [])
    (hcl : ∀ cl ∈ classes, rand < cl.length)
    (hml : metas.length = classes.length)
    (hmr : ∀ ml ∈ metas, rand < ml.length)
    (htask : ds.task = Task.segmentation)
    (hok : getitem ds T rand dropoutF fromArr i = .ok (s, tr)) :
    resolveRater rand b.seg.gt =
      .ok (some (classes.map (fun cl => cl.getD rand default)),
           some (metas.map (fun ml => ml.getD rand Meta.empty))) ∧
    ∃ c : TCall A, tr.get? 2 = some c ∧ c.kind = .gt ∧
      c.sample = some (classes.map (fun cl => cl.getD rand default)) ∧
      ∃ m : List Meta, c.metadata =
        update_metadata m (metas.map (fun ml => ml.getD rand Meta.empty)) := by
  have hrat : resolveRater rand b.seg.gt =
      .ok (some (classes.map (fun cl => cl.getD rand default)),
           some (metas.map (fun ml => ml.getD rand Meta.empty))) := by
    rw [hgt]
    exact resolveRater_multi rand classes metas hne hcl hml hmr
  refine ⟨hrat, ?_⟩
  unfold getitem at hok
  rw [hres] at hok
  dsimp only at hok
  rw [hrat] at hok
  dsimp only at hok
  rw [htask] at hok
  have htr := processBundle_seg_trace T ds.soft_gt ds.is_input_dropout dropoutF fromArr
    b _ _ co s tr hok
  rw [htr]
  exact ⟨_, rfl, rfl, rfl, ⟨_, rfl⟩⟩

theorem C5_witness :
    ∃ s tr, getitem dsMR constT 1 id fromArr0 0 = Except.ok (s, tr) ∧
      (resolveRater 1 bundleMR.seg.gt =
        .ok (some [11, 21], some [Meta.empty, Meta.empty]) ∧
       ∃ c : TCall ℕ, tr.get? 2 = some c ∧ c.kind = .gt ∧
         c.sample = some [11, 21] ∧
         ∃ m : List Meta, c.metadata =
           update_metadata m [Meta.empty, Meta.empty]) :=
  ⟨_, _, rfl,
    C5_one_rater_shared_across_classes dsMR constT 1 id fromArr0 0 bundleMR none
      [[10, 11], [20, 21]] [[Meta.empty, Meta.empty], [Meta.empty, Meta.empty]] _ _
      rfl rfl (by decide) (by decide) rfl (by decide) rfl rfl⟩

/-- C6, counterexample: a patch-mode fetch whose record asks for the window
`[0,4) × [0,4)` of a transformed tensor of height and width 2 does not fail —
no ShapeMismatchError exists anywhere in the fetch path — it returns a sample
whose input was silently truncated to height 2 by Python slice clamping. -/
theorem C6_counterexample_no_shape_error :
    (getitem ds1 constT 0 id fromArr0 0).isOk = true ∧
    (match getitem ds1 constT 0 id fromArr0 0 with
      | .ok (s, _) => s.input.map Tensor3.height
      | .error _ => none) = some 2 ∧ (2 : ℕ) ≠ (4 : ℕ) := by decide

/-- C6 (amended): when the patch record's crop window does not fit inside the
transformed tensor, the fetch does not fail; Python slice semantics clamp the
window, and the returned input patch is the sliced tensor whose height and
width are `min(x_max, H') - min(x_min, H')` and `min(y_max, W') - min(y_min, W')`
for the transformed resolution `(H', W')` — smaller than the requested window
when the window overruns. -/
theorem C6_amended_overrunning_window_is_clamped {A : Type} (ds : Dataset2D A)
    (T : TransformFn A) (rand : ℕ) (dropoutF : Sample → Sample)
    (fromArr : A → Tensor3) (i : ℤ) (b : Bundle A) (coord : PatchRecord)
    (gtArrs : Option (List A)) (gtMetas : Option (List Meta)) (tIn : Tensor3)
    (hres : resolveEntry ds i = .ok (b, some coord))
    (hrat : resolveRater rand b.seg.gt = .ok (gtArrs, gtMetas))
    (htask : ds.task = Task.segmentation)
    (hdrop : ds.is_input_dropout = false)
    (him : ∀ m : List Meta, (T DataKind.im (some b.seg.input) m).1 = some tIn)
    (hch : tIn.channels ≠ 0)
    (hx0 : 0 ≤ coord.x_min) (hxm : coord.x_min ≤ coord.x_max)
    (hy0 : 0 ≤ coord.y_min) (hym : coord.y_min ≤ coord.y_max) :
    ∃ s tr, getitem ds T rand dropoutF fromArr i = .ok (s, tr) ∧
      s.input = some (slice3 tIn coord.x_min coord.x_max coord.y_min coord.y_max) ∧
      (slice3 tIn coord.x_min coord.x_max coord.y_min coord.y_max).height =
        min coord.x_max.toNat tIn.height - min coord.x_min.toNat tIn.height ∧
      (slice3 tIn coord.x_min coord.x_max coord.y_min coord.y_max).width =
        min coord.y_max.toNat tIn.width - min coord.y_min.toNat tIn.width := by
  unfold getitem
  rw [hres]
  dsimp only
  rw [hrat]
  dsimp only
  rw [htask, hdrop]
  unfold processBundle
  dsimp only
  rw [him]
  dsimp only
  rw [if_neg hch]
  have hslice : slice3 tIn coord.x_min coord.x_max coord.y_min coord.y_max =
      { channels := tIn.channels
        height := min coord.x_max.toNat tIn.height - min coord.x_min.toNat tIn.height
        width := min coord.y_max.toNat tIn.width - min coord.y_min.toNat tIn.width
        data := fun ch i2 j2 => tIn.data ch (min coord.x_min.toNat tIn.height + i2)
          (min coord.y_min.toNat tIn.width + j2) } := by
    unfold slice3 pySliceIdx
    rw [if_neg (by omega : ¬ coord.x_max < 0), if_neg (by omega : ¬ coord.x_min < 0),
      if_neg (by omega : ¬ coord.y_max < 0), if_neg (by omega : ¬ coord.y_min < 0)]
  refine ⟨_, _, rfl, rfl, ?_, ?_⟩
  · rw [hslice]
  · rw [hslice]

theorem C6_witness :
    ∃ s tr, getitem ds1 constT 0 id fromArr0 0 = Except.ok (s, tr) ∧
      s.input = some (slice3 tIn0 0 4 0 4) ∧
      (slice3 tIn0 0 4 0 4).height =
        min (4 : ℤ).toNat tIn0.height - min (0 : ℤ).toNat tIn0.height ∧
      (slice3 tIn0 0 4 0 4).width =
        min (4 : ℤ).toNat tIn0.width - min (0 : ℤ).toNat tIn0.width :=
  C6_amended_overrunning_window_is_clamped ds1 constT 0 id fromArr0 0 bundle0
    { x_min := 0, x_max := 4, y_min := 0, y_max := 4, handler_index := 0 }
    none none tIn0
    rfl rfl rfl rfl (fun _ => rfl) (by decide) (by decide) (by decide)
    (by decide) (by decide)

/-! ## Claims about the transforms -/

/-- C8 (the code defect): with `labeled=True` and a concrete sample whose
input is constant 5 and whose ground truth is constant 7, `ROICrop2D`
returns a ground truth reading 5 — the crop window applied to the
already-cropped input — while the crop window applied to the ground-truth
array itself (the spec's definition) reads 7. -/
theorem C8_gt_crop_reads_input_not_gt :
    ((roiCrop2D cropSample0 (2, 2) true).gt).px 0 0 = 5 ∧
    (roiCrop2D_gt_spec cropSample0 (2, 2)).px 0 0 = 7 ∧
    ((roiCrop2D cropSample0 (2, 2) true).gt).px 0 0 ≠
      (roiCrop2D_gt_spec cropSample0 (2, 2)).px 0 0 := by
  have hcomR : roi0.comRow = 1 := by
    norm_num [Img.comRow, Img.mass, roi0, List.range_succ]
  have hcomC : roi0.comCol = 1 := by
    norm_num [Img.comCol, Img.mass, roi0, List.range_succ]
  have hr1 : pyRound 1 = 1 := by norm_num [pyRound, Int.floor_one]
  have h2 : ((2 : ℕ) : ℚ) / 2 = 1 := by norm_num
  have h1 : ((roiCrop2D cropSample0 (2, 2) true).gt).px 0 0 = 5 := by
    simp only [roiCrop2D, cropSample0]
    norm_num [hcomR, hcomC, hr1, h2, cropImg, Img.getPx, constImg]
  have hspec : (roiCrop2D_gt_spec cropSample0 (2, 2)).px 0 0 = 7 := by
    simp only [roiCrop2D_gt_spec, cropSample0]
    norm_num [hcomR, hcomC, hr1, h2, cropImg, Img.getPx, constImg]
  refine ⟨h1, hspec, ?_⟩
  rw [h1, hspec]
  norm_num

/-- C9 (the code defect): `DilateGT` is the identity when the factor is `0`
or the slice is all background, but with a positive factor and a nonzero
binary mask the call raises `NameError` (missing `import math` in
transforms.py) instead of returning a soft-valued ground truth. -/
theorem C9_dilation_branch_raises_nameerror :
    dilateGT 1 gtLesion0 = .error .nameError ∧
    dilateGT 0 gtLesion0 = .ok gtLesion0 ∧
    dilateGT 1 (constImg 2 2 0) = .ok (constImg 2 2 0) ∧
    gtLesion0.mass ≠ 0 := by
  have hmass : gtLesion0.mass = 1 := by
    norm_num [Img.mass, gtLesion0, List.range_succ]
  have hzero : (constImg 2 2 0).mass = 0 := by
    norm_num [Img.mass, constImg, List.range_succ]
  refine ⟨?_, ?_, ?_, ?_⟩
  · unfold dilateGT
    rw [if_pos ⟨by norm_num, by rw [hmass]; norm_num⟩]
  · unfold dilateGT
    rw [if_neg (by simp)]
  · unfold dilateGT
    rw [if_neg (by simp [hzero])]
  · rw [hmass]
    norm_num

end Ivadomed
